import Mathlib

/-!
Verification development for the TRIH episode explorer (data.js, stats.js and
the two unnamed source snapshots). JavaScript strings are modelled as lists of
characters, JS Sets as insertion-ordered duplicate-free lists, JS Maps as
insertion-ordered association lists, and JS numbers as exact rationals; the
one place where JS non-finite arithmetic matters (division by a zero
denominator in the simple stats variant) uses an explicit JSNum type with
infinity and NaN values. DOM effects are modelled by the data they leave
behind (option lists per dropdown panel, checkbox state, selection sets).
-/

set_option maxRecDepth 10000

/-- JavaScript strings, modelled as lists of characters. -/
abbrev JStr := List Char

/-- The ASCII part of the JS whitespace class used by trim and by regex \s. -/
def isJsSpace (c : Char) : Bool :=
  c = ' ' || c = '\t' || c = '\n' || c = '\r' || c = '\x0b' || c = '\x0c'

/-- String.prototype.trim restricted to the modelled whitespace characters. -/
def trimStr (s : JStr) : JStr :=
  ((s.dropWhile isJsSpace).reverse.dropWhile isJsSpace).reverse

/-- String.prototype.toLowerCase restricted to the ASCII letters. -/
def lowerChar (c : Char) : Char :=
  if 'A' ≤ c ∧ c ≤ 'Z' then Char.ofNat (c.toNat + 32) else c

/-- toLowerCase over a whole string. -/
def jsToLower (s : JStr) : JStr := s.map lowerChar

/-- String.prototype.startsWith: startsWithStr s p decides whether p is a
leading segment of s. -/
def startsWithStr : JStr → JStr → Bool
  | _, [] => true
  | [], _ :: _ => false
  | c :: s, d :: p => c = d && startsWithStr s p

/-- String.prototype.split with separator ",": every comma splits, empty
pieces are kept, and the result is never the empty list. -/
def splitOnComma : JStr → List JStr
  | [] => [[]]
  | c :: rest =>
    if c = ',' then [] :: splitOnComma rest
    else
      match splitOnComma rest with
      | s :: ss => (c :: s) :: ss
      | [] => [[c]]

/-- Array.prototype.join with separator "," (also the behaviour of a JS array
interpolated into a template literal). -/
def joinComma : List JStr → JStr
  | [] => []
  | [p] => p
  | p :: q :: ps => p ++ ',' :: joinComma (q :: ps)

/-- The longest leading run of decimal digits of a string, with the rest. -/
def takeDigits : JStr → JStr × JStr
  | [] => ([], [])
  | c :: rest =>
    if c.isDigit then
      let p := takeDigits rest
      (c :: p.1, p.2)
    else ([], c :: rest)

/-- The numeric value of a digit string (the code only applies it to decimal
digit runs produced by takeDigits or by String(year)). -/
def digitsVal (s : JStr) : Int :=
  s.foldl (fun n c => n * 10 + ((c.toNat : Int) - 48)) 0

/-- The regex match ^\d+\.\s* of data.js stripPrefix: when the string starts
with one or more digits followed by a dot, the remainder after also dropping
the following whitespace, and none otherwise. -/
def numDotRest (s : JStr) : Option JStr :=
  match takeDigits s with
  | ([], _) => none
  | (_ :: _, rest) =>
    match rest with
    | '.' :: r2 => some (r2.dropWhile isJsSpace)
    | _ => none

/-- data.js stripPrefix: v.replace of the leading digits-dot-spaces pattern
by the empty string (one occurrence; unchanged when there is no match). -/
def stripPrefix (s : JStr) : JStr :=
  match numDotRest s with
  | some r => r
  | none => s

/-- data.js / part_001 parseTags: split the raw field on commas, trim each
piece, drop empty pieces (filter(Boolean)); an absent or empty field gives
the empty list. This variant keeps numeric prefixes. -/
def parseTags (v : JStr) : List JStr :=
  if v = [] then []
  else ((splitOnComma v).map trimStr).filter (fun t => !t.isEmpty)

/-- parseInt(s) as used by sortWithNoneLast: skip leading whitespace, an
optional sign, then the longest decimal digit run; none models NaN. The hex
form 0x of parseInt is not modelled (no tag label here begins with 0x). -/
def jsParseInt (s : JStr) : Option Int :=
  match s.dropWhile isJsSpace with
  | '-' :: rest =>
    match takeDigits rest with
    | ([], _) => none
    | (ds, _) => some (-(digitsVal ds))
  | '+' :: rest =>
    match takeDigits rest with
    | ([], _) => none
    | (ds, _) => some (digitsVal ds)
  | other =>
    match takeDigits other with
    | ([], _) => none
    | (ds, _) => some (digitsVal ds)

/-- Code-point comparison of strings: the stand-in for the default-locale
String.prototype.localeCompare wherever a comparator needs a concrete
instantiation; the general theorems stay parametric in the locale compare. -/
def cpOrd : JStr → JStr → Ordering
  | [], [] => Ordering.eq
  | [], _ :: _ => Ordering.lt
  | _ :: _, [] => Ordering.gt
  | a :: as, b :: bs =>
    if a < b then Ordering.lt else if b < a then Ordering.gt else cpOrd as bs

/-- Insert into a sorted list: walk past the strictly smaller elements, so
that equal elements keep their original relative order. -/
def insertSorted (cmp : α → α → Ordering) (x : α) : List α → List α
  | [] => [x]
  | y :: ys =>
    if cmp x y = Ordering.gt then y :: insertSorted cmp x ys else x :: y :: ys

/-- Stable comparison sort, the model of Array.prototype.sort with a
comparator (stable per ES2019). -/
def sortBy (cmp : α → α → Ordering) (l : List α) : List α :=
  l.foldr (insertSorted cmp) []

/-- The sentinel test of every sort policy in the sources: label.startsWith
of the three characters N, o, space. -/
def strNoSp : JStr := "No ".toList

/-- The unassigned sentinels and the sample tag labels used below. -/
def noPeriodTag : JStr := "No period assigned".toList

def noRegionTag : JStr := "No region assigned".toList

def noTopicTag : JStr := "No topic assigned".toList

def noSeriesTag : JStr := "No series assigned".toList

/-- The comparator of data.js sortWithNoneLast (also part_001): sentinel
labels last, then numeric parseInt prefixes ascending, numeric before
non-numeric, and otherwise localeCompare (the parameter lc). -/
def sortWithNoneLastCmp (lc : JStr → JStr → Ordering) (a b : JStr) : Ordering :=
  let aIsNone := startsWithStr a strNoSp
  let bIsNone := startsWithStr b strNoSp
  if aIsNone && !bIsNone then Ordering.gt
  else if !aIsNone && bIsNone then Ordering.lt
  else
    match jsParseInt a, jsParseInt b with
    | some na, some nb => compare na nb
    | some _, none => Ordering.lt
    | none, some _ => Ordering.gt
    | none, none => lc a b

/-- data.js sortWithNoneLast: arr.sort with the comparator above. -/
def sortWithNoneLast (lc : JStr → JStr → Ordering) (l : List JStr) : List JStr :=
  sortBy (sortWithNoneLastCmp lc) l

/-- The comparator of sortAlphaNoneLast: sentinel labels last, otherwise
localeCompare. -/
def sortAlphaNoneLastCmp (lc : JStr → JStr → Ordering) (a b : JStr) : Ordering :=
  let aIsNone := startsWithStr a strNoSp
  let bIsNone := startsWithStr b strNoSp
  if aIsNone && !bIsNone then Ordering.gt
  else if !aIsNone && bIsNone then Ordering.lt
  else lc a b

/-- data.js sortAlphaNoneLast. -/
def sortAlphaNoneLast (lc : JStr → JStr → Ordering) (l : List JStr) : List JStr :=
  sortBy (sortAlphaNoneLastCmp lc) l

/-- The comparator of the OTHER sortWithNoneLast, the one in src/stats.js
lines 137-147: sentinel labels last, otherwise the localeCompare of the
prefix-stripped labels with the arguments reversed (the source returns
bb.localeCompare(aa) with the numeric collation option), so non-sentinel
labels come out descending by stripped label. lc stands for that
numeric-aware locale compare; the concrete instantiation below uses cpOrd,
with which every locale agrees on the plain ASCII words compared there. -/
def sortWithNoneLastStatsCmp (lc : JStr → JStr → Ordering) (a b : JStr) :
    Ordering :=
  let aIsNone := startsWithStr a strNoSp
  let bIsNone := startsWithStr b strNoSp
  if aIsNone && !bIsNone then Ordering.gt
  else if !aIsNone && bIsNone then Ordering.lt
  else lc (stripPrefix b) (stripPrefix a)

/-- src/stats.js sortWithNoneLast: arr.sort with the reversed stripped
comparator. -/
def sortWithNoneLastStats (lc : JStr → JStr → Ordering) (l : List JStr) :
    List JStr :=
  sortBy (sortWithNoneLastStatsCmp lc) l

/-- The year-and-month part of a parsed publish date: the two observations
the code makes of a JS Date (getFullYear and getMonth, months 0 to 11). -/
structure JSDate where
  year : Nat
  month : Nat
deriving DecidableEq

/-- A normalized record as built in data.js bootstrap: parsed episode
ordinal, trimmed title, optional parsed date, trimmed description and one
parsed tag list per dimension. -/
structure Record where
  episode : Option Nat
  title : JStr
  pubDate : Option JSDate
  description : JStr
  period : List JStr
  region : List JStr
  topic : List JStr
deriving DecidableEq

/-- r.PublishDate ? r.PublishDate.getFullYear() : 0, as the canonical sort
reads it. -/
def yearOf (r : Record) : Int :=
  match r.pubDate with
  | some d => d.year
  | none => 0

/-- r.PublishDate ? r.PublishDate.getMonth() : -1, as the canonical sort
reads it. -/
def monthOf (r : Record) : Int :=
  match r.pubDate with
  | some d => d.month
  | none => -1

/-- r.Episode || 0: the episode ordinal with absent read as 0. -/
def epOf (r : Record) : Int :=
  match r.episode with
  | some n => n
  | none => 0

/-- String(r.PublishDate.getFullYear()) for a present date, "" otherwise
(the year filter compares against this string). -/
def yearStr (r : Record) : JStr :=
  match r.pubDate with
  | some d => Nat.toDigits 10 d.year
  | none => []

/-- The effective period tags: r.Period.length ? r.Period : the sentinel. -/
def effPeriod (r : Record) : List JStr :=
  if r.period = [] then [noPeriodTag] else r.period

/-- The effective region tags. -/
def effRegion (r : Record) : List JStr :=
  if r.region = [] then [noRegionTag] else r.region

/-- The effective topic tags. -/
def effTopic (r : Record) : List JStr :=
  if r.topic = [] then [noTopicTag] else r.topic

/-- The filter part of the data.js state object: the free-text query and one
selection set per dimension. JS Sets are modelled as insertion-ordered lists
without duplicates; only membership matters to the claims. -/
structure Filters where
  q : JStr
  years : List JStr
  periods : List JStr
  regions : List JStr
  topics : List JStr
deriving DecidableEq

/-- Set.prototype.add: append the value unless already present. -/
def setAdd (s : List JStr) (v : JStr) : List JStr :=
  if v ∈ s then s else s ++ [v]

/-- Adding every element of a list to a JS Set in order. -/
def setAddAll (s : List JStr) (vs : List JStr) : List JStr :=
  vs.foldl setAdd s

/-- Substring containment, the model of String.prototype.includes. -/
def containsSub (hay needle : JStr) : Bool :=
  match hay with
  | [] => needle.isEmpty
  | _ :: rest => startsWithStr hay needle || containsSub rest needle

/-- The lower-cased haystack of the free-text search in applyAndRender:
title, description and the three tag arrays joined by commas, separated by
single spaces (the template literal of data.js line 291). -/
def hayOf (r : Record) : JStr :=
  jsToLower (r.title ++ ' ' :: r.description ++ ' ' :: joinComma r.period ++
    ' ' :: joinComma r.region ++ ' ' :: joinComma r.topic)

/-- The filter callback of applyAndRender (data.js lines 289-316): the query
must occur in the haystack, and each dimension with a non-empty selection
must intersect the effective tag set of the record. -/
def matchesFilters (f : Filters) (r : Record) : Bool :=
  (f.q.isEmpty || containsSub (hayOf r) f.q) &&
  (f.years.isEmpty || f.years.contains (yearStr r)) &&
  (f.periods.isEmpty || (effPeriod r).any (fun t => f.periods.contains t)) &&
  (f.regions.isEmpty || (effRegion r).any (fun t => f.regions.contains t)) &&
  (f.topics.isEmpty || (effTopic r).any (fun t => f.topics.contains t))

/-- The filter step of applyAndRender: rows.filter of the callback, before
the separate sort step. -/
def filterRows (f : Filters) (rows : List Record) : List Record :=
  rows.filter (matchesFilters f)

/-- The canonical sort comparator of applyAndRender (data.js lines 318-329):
the sign of year difference, then month difference, then episode difference
(each descending), then localeCompare of the titles (the parameter lc). -/
def canonicalCmp (lc : JStr → JStr → Ordering) (a b : Record) : Ordering :=
  if yearOf b - yearOf a ≠ 0 then
    (if yearOf b - yearOf a < 0 then Ordering.lt else Ordering.gt)
  else if monthOf b - monthOf a ≠ 0 then
    (if monthOf b - monthOf a < 0 then Ordering.lt else Ordering.gt)
  else if epOf b - epOf a ≠ 0 then
    (if epOf b - epOf a < 0 then Ordering.lt else Ordering.gt)
  else lc a.title b.title

/-- The order the spec describes, written from its words: publish year
descending, then month descending, then episode ordinal descending, then
title ascending. Stated separately from canonicalCmp so the two can be
proved equal. -/
def canonicalSpecOrder (lc : JStr → JStr → Ordering) (a b : Record) : Ordering :=
  if yearOf a > yearOf b then Ordering.lt
  else if yearOf a < yearOf b then Ordering.gt
  else if monthOf a > monthOf b then Ordering.lt
  else if monthOf a < monthOf b then Ordering.gt
  else if epOf a > epOf b then Ordering.lt
  else if epOf a < epOf b then Ordering.gt
  else lc a.title b.title

/-- The option lists the four dropdown panels of data.js currently show, one
list of checkbox values per dimension: the data the cascade rebuild reads
(skip) or overwrites (rebuild). -/
structure Panels where
  year : List JStr
  period : List JStr
  region : List JStr
  topic : List JStr
deriving DecidableEq

/-- The candidate value sets the cascade collects in one pass over the
filtered rows (data.js lines 589-601): the year string of every dated row,
and the effective tags of every row for the other dimensions. -/
structure OptionSets where
  years : List JStr
  periods : List JStr
  regions : List JStr
  topics : List JStr

/-- The collection loop of rebuildFilterOptionsCascade. -/
def collectOptionSets (rows : List Record) : OptionSets :=
  rows.foldl
    (fun s r =>
      { years :=
          match r.pubDate with
          | some d => setAdd s.years (Nat.toDigits 10 d.year)
          | none => s.years,
        periods := setAddAll s.periods (effPeriod r),
        regions := setAddAll s.regions (effRegion r),
        topics := setAddAll s.topics (effTopic r) })
    ⟨[], [], [], []⟩

/-- The year dropdown sort: [...set].sort by Number(b) - Number(a), numeric
descending (the inputs are the decimal strings the code itself produced). -/
def sortYearDesc (l : List JStr) : List JStr :=
  sortBy (fun a b => compare (digitsVal b) (digitsVal a)) l

/-- data.js rebuildFilterOptionsCascade as a function of the selections, the
filtered rows and the panel contents before the call: a dimension whose
selection set is non-empty is skipped (its panel keeps its prior options), a
dimension with an empty selection gets the sorted candidate set collected
from the filtered rows. -/
def rebuildFilterOptionsCascade (f : Filters) (filtered : List Record)
    (prior : Panels) : Panels :=
  let sets := collectOptionSets filtered
  { year := if f.years = [] then sortYearDesc sets.years else prior.year,
    period :=
      if f.periods = [] then sortWithNoneLast cpOrd sets.periods
      else prior.period,
    region :=
      if f.regions = [] then sortAlphaNoneLast cpOrd sets.regions
      else prior.region,
    topic :=
      if f.topics = [] then sortAlphaNoneLast cpOrd sets.topics
      else prior.topic }

/-- The data.js application state the URL code touches: the filters plus the
grouping mode. -/
structure AppState where
  filters : Filters
  groupBy : JStr
deriving DecidableEq

/-- The query-string parameter names. -/
def kQ : JStr := "q".toList

def kGroup : JStr := "group".toList

def kYears : JStr := "years".toList

def kPeriods : JStr := "periods".toList

def kRegions : JStr := "regions".toList

def kTopics : JStr := "topics".toList

/-- The startup default of state.groupBy. -/
def defaultGroup : JStr := "date".toList

/-- One conditional params.set call: the pair when the condition (JS
truthiness of the serialized value) holds, nothing otherwise. -/
def seg (present : Bool) (k v : JStr) : List (JStr × JStr) :=
  if present then [(k, v)] else []

/-- data.js updateUrlFromState, modelled at the level of URLSearchParams
entries: an ordered list of key-value pairs. URLSearchParams toString and
re-parsing round-trip each pair exactly (percent-encoding), so the encoded
query string itself is elided from the model. -/
def updateUrlFromState (st : AppState) : List (JStr × JStr) :=
  seg (!st.filters.q.isEmpty) kQ st.filters.q ++
  seg (!st.groupBy.isEmpty) kGroup st.groupBy ++
  seg (!st.filters.years.isEmpty) kYears (joinComma st.filters.years) ++
  seg (!st.filters.periods.isEmpty) kPeriods (joinComma st.filters.periods) ++
  seg (!st.filters.regions.isEmpty) kRegions (joinComma st.filters.regions) ++
  seg (!st.filters.topics.isEmpty) kTopics (joinComma st.filters.topics)

/-- URLSearchParams.get: the value of the first pair with the key, if any. -/
def getParam : List (JStr × JStr) → JStr → Option JStr
  | [], _ => none
  | (k', v) :: ps, k => if k' = k then some v else getParam ps k

/-- The per-dimension read of loadStateFromUrl: when the parameter is
present, split it on commas and add every piece to the (empty) selection
set; otherwise leave the set empty. -/
def readSet (ps : List (JStr × JStr)) (k : JStr) : List JStr :=
  match getParam ps k with
  | some raw => setAddAll [] (splitOnComma raw)
  | none => []

/-- data.js loadStateFromUrl, applied to the initial state (empty query and
selections, grouping mode "date"): the query parameter is lower-cased, the
group parameter overrides the default, and each dimension parameter is
comma-split into its selection set. -/
def loadStateFromUrl (ps : List (JStr × JStr)) : AppState :=
  { filters :=
      { q :=
          match getParam ps kQ with
          | some v => jsToLower v
          | none => [],
        years := readSet ps kYears,
        periods := readSet ps kPeriods,
        regions := readSet ps kRegions,
        topics := readSet ps kTopics },
    groupBy :=
      match getParam ps kGroup with
      | some v => v
      | none => defaultGroup }

/-- One aggregate row of buildTagStats: label, count and percentage. The
percentage is an exact rational (JS numbers are modelled exactly; the
binary-float rounding of the engine is outside the model). -/
structure AggRow where
  label : JStr
  count : Nat
  pct : ℚ
deriving DecidableEq

/-- map.set of tag to (map.get of tag or 0) + 1 on an insertion-ordered
association list, the model of the JS Map in buildTagStats: an existing key
keeps its position, a new key is appended. -/
def bumpTag : List (JStr × Nat) → JStr → List (JStr × Nat)
  | [], tag => [(tag, 1)]
  | (t, c) :: rest, tag =>
    if t = tag then (t, c + 1) :: rest else (t, c) :: bumpTag rest tag

/-- The counting loop of part_001 buildTagStats: every tag of every selected
tag list bumps its map entry. -/
def tallyTags (tagLists : List (List JStr)) : List (JStr × Nat) :=
  tagLists.foldl (fun m tags => tags.foldl bumpTag m) []

/-- part_001 buildTagStats (lines 431-445): tally the selected tags of every
row, then emit one row per map entry with pct = totalEpisodes ? (count /
totalEpisodes) * 100 : 0. -/
def buildTagStats (rows : List Record) (sel : Record → List JStr)
    (total : Nat) : List AggRow :=
  (tallyTags (rows.map sel)).map
    (fun p =>
      ⟨p.1, p.2,
        if total ≠ 0 then ((p.2 : ℚ) / (total : ℚ)) * 100 else 0⟩)

/-- A JS number for the one computation where non-finite values matter:
finite rational, the two infinities, or NaN. -/
inductive JSNum where
  | fin (q : ℚ)
  | inf
  | negInf
  | nan
deriving DecidableEq

/-- JS division a / b including the zero-denominator cases: 0/0 is NaN and
n/0 is a signed infinity. -/
def jsDiv (a b : ℚ) : JSNum :=
  if b = 0 then
    (if a = 0 then JSNum.nan
     else if 0 < a then JSNum.inf
     else JSNum.negInf)
  else JSNum.fin (a / b)

/-- Multiplication of a JS number by a positive finite constant (used with
100): infinities and NaN are preserved. -/
def jsMulPos (x : JSNum) (c : ℚ) : JSNum :=
  match x with
  | JSNum.fin q => JSNum.fin (q * c)
  | JSNum.inf => JSNum.inf
  | JSNum.negInf => JSNum.negInf
  | JSNum.nan => JSNum.nan

/-- An aggregate row of the simple stats variant, whose percentage is a JS
number because its division has no zero guard. -/
structure AggRowJS where
  label : JStr
  count : Nat
  pct : JSNum
deriving DecidableEq

/-- The counting loop of src/stats.js buildTagStats: skip a row whose
selected list is empty, de-duplicate the list (Array.from of a Set keeps
first occurrences), then bump each tag. -/
def tallyTagsDedup (tagLists : List (List JStr)) : List (JStr × Nat) :=
  tagLists.foldl
    (fun m tags =>
      if tags.isEmpty then m else (setAddAll [] tags).foldl bumpTag m)
    []

/-- src/stats.js buildTagStats (lines 87-114): per-row de-duplicated tally,
then pct = (count / totalEpisodes) * 100 with no zero guard, so a zero
denominator produces an infinity. -/
def buildTagStatsSimple (rows : List Record) (sel : Record → List JStr)
    (total : Nat) : List AggRowJS :=
  (tallyTagsDedup (rows.map sel)).map
    (fun p => ⟨p.1, p.2, jsMulPos (jsDiv (p.2 : ℚ) (total : ℚ)) 100⟩)

/-- toFixed(1) as a rounding of the exact rational to one decimal place
(nearest, ties up), the formatting renderStatsTable applies to pct. -/
def roundTo1 (q : ℚ) : ℚ :=
  ((round (q * 10) : ℤ) : ℚ) / 10

/-- The filter state of the stats page (part_001), which has a fifth series
dimension. -/
structure StatsFilters where
  years : List JStr
  periods : List JStr
  regions : List JStr
  topics : List JStr
  series : List JStr
deriving DecidableEq

/-- The dropdown keys of the stats page. -/
def kYearKey : JStr := "year".toList

def kPeriodKey : JStr := "period".toList

def kRegionKey : JStr := "region".toList

def kTopicKey : JStr := "topic".toList

def kSeriesKey : JStr := "series".toList

/-- The owningSet conditional chain of part_001 rebuildFilterOptionsCascade
(lines 406-413): year, period and region map to their sets and every other
key, including series, falls through to the topics set. -/
def owningSet (f : StatsFilters) (key : JStr) : List JStr :=
  if key = kYearKey then f.years
  else if key = kPeriodKey then f.periods
  else if key = kRegionKey then f.regions
  else f.topics

/-- input.checked = owningSet.has(v): the initial checked state of a rebuilt
option checkbox. -/
def checkedState (f : StatsFilters) (key v : JStr) : Bool :=
  (owningSet f key).contains v

/-- The change handler of a rebuilt option checkbox when it is checked on:
owningSet.add(v) mutates whichever set the owningSet chain selected. -/
def cascadeToggleOn (f : StatsFilters) (key v : JStr) : StatsFilters :=
  if key = kYearKey then { f with years := setAdd f.years v }
  else if key = kPeriodKey then { f with periods := setAdd f.periods v }
  else if key = kRegionKey then { f with regions := setAdd f.regions v }
  else { f with topics := setAdd f.topics v }

/-- The labels of the sort-policy test list. -/
def tag1Bronze : JStr := "1. Bronze".toList

def tag2Silver : JStr := "2. Silver".toList

def tag3Gold : JStr := "3. Gold".toList

def tagAncient : JStr := "Ancient".toList

def tagMedieval : JStr := "Medieval".toList

def tagRome : JStr := "Rome".toList

/-- The three records of the aggregation scenario: A with period Ancient, B
with no period, C with periods Ancient and Medieval. -/
def epA : Record :=
  { episode := none, title := "A".toList, pubDate := some ⟨2020, 0⟩,
    description := [], period := [tagAncient], region := [], topic := [] }

def epB : Record :=
  { episode := none, title := "B".toList, pubDate := some ⟨2020, 0⟩,
    description := [], period := [], region := [], topic := [] }

def epC : Record :=
  { episode := none, title := "C".toList, pubDate := some ⟨2021, 0⟩,
    description := [], period := [tagAncient, tagMedieval], region := [],
    topic := [] }

def scenarioRecords : List Record := [epA, epB, epC]

/-- Sample records for the canonical-sort and filter witnesses. -/
def recW1 : Record :=
  { episode := some 3, title := "Alpha".toList, pubDate := some ⟨2021, 4⟩,
    description := [], period := [tag1Bronze], region := [tagRome],
    topic := [] }

def recW2 : Record :=
  { episode := some 7, title := "Beta".toList, pubDate := some ⟨2020, 11⟩,
    description := [], period := [], region := [], topic := [] }

def recNoEp : Record :=
  { episode := none, title := "Gamma".toList, pubDate := none,
    description := [], period := [], region := [], topic := [] }

/-- A string the regex does not match is returned unchanged. -/
theorem stripPrefix_no_match (t : JStr) (h : numDotRest t = none) :
    stripPrefix t = t := by
  simp [stripPrefix, h]

/-- C2 (corrected). stripPrefix is false as an unconditional idempotence
claim; what holds: the match is removed when there is one, the input is
returned unchanged when there is none, and a second application is the
identity whenever the once-stripped result has no further leading
digits-dot match. -/
theorem C2_stripPrefix_conditional_idempotent (s : JStr) :
    (∀ r, numDotRest s = some r → stripPrefix s = r) ∧
    (numDotRest s = none → stripPrefix s = s) ∧
    (numDotRest (stripPrefix s) = none →
      stripPrefix (stripPrefix s) = stripPrefix s) := by
  refine ⟨?_, ?_, ?_⟩
  · intro r h
    simp [stripPrefix, h]
  · intro h
    exact stripPrefix_no_match s h
  · intro h
    exact stripPrefix_no_match (stripPrefix s) h

/-- C2 counterexample: on the stacked-pre-dot string 1.2.3 the second
application strips again, so stripPrefix applied twice differs from
stripPrefix applied once. -/
theorem C2_counterexample :
    stripPrefix (stripPrefix ("1.2.3".toList)) ≠
      stripPrefix ("1.2.3".toList) := by decide

/-- C2 witness: the conditional idempotence discharged at concrete inputs
(a label with no prefix and a label with a single prefix). -/
theorem C2_witness :
    stripPrefix tagRome = tagRome ∧
    stripPrefix (stripPrefix tag1Bronze) = stripPrefix tag1Bronze ∧
    stripPrefix tag1Bronze = "Bronze".toList :=
  ⟨(C2_stripPrefix_conditional_idempotent tagRome).2.1 (by decide),
   (C2_stripPrefix_conditional_idempotent tag1Bronze).2.2 (by decide),
   (C2_stripPrefix_conditional_idempotent tag1Bronze).1 ("Bronze".toList)
     (by decide)⟩

/-- C3 (corrected). parseTags never emits an empty string: every element of
its output is a non-empty trimmed piece. Duplicate collapsing, the other
half of the original claim, does not hold of parseTags (see the
counterexample); de-duplication happens only at aggregation time. -/
theorem C3_parseTags_no_empty (v t : JStr) (h : t ∈ parseTags v) :
    t ≠ [] := by
  by_cases hv : v = []
  · simp [parseTags, hv] at h
  · rw [parseTags, if_neg hv] at h
    rcases List.mem_filter.mp h with ⟨-, h2⟩
    simpa using h2

/-- C3 counterexample: a raw field naming the same tag twice parses to two
equal tags, so the tag sequence of a record is not duplicate-free. -/
theorem C3_counterexample :
    parseTags ("Ancient,Ancient".toList) = [tagAncient, tagAncient] ∧
    ¬ (parseTags ("Ancient,Ancient".toList)).Nodup := by decide

/-- C3 witness: the no-empty-strings theorem at a concrete raw field. -/
theorem C3_witness :
    tagAncient ∈ parseTags (" Ancient , Medieval".toList) ∧ tagAncient ≠ [] :=
  ⟨by decide,
   C3_parseTags_no_empty (" Ancient , Medieval".toList) tagAncient (by decide)⟩

/-- C4 (corrected). In the filtered-stats buildTagStats (part_001) the
percentage of every row is exactly 0 when the total denominator is 0 and
exactly 100 * count / total otherwise. The simple stats variant
(src/stats.js) has no zero guard and yields an infinity instead (see the
counterexample); its caller only invokes it with a non-zero unfiltered
collection size. -/
theorem C4_buildTagStats_pct (rows : List Record) (sel : Record → List JStr)
    (total : Nat) (row : AggRow) (h : row ∈ buildTagStats rows sel total) :
    (total = 0 → row.pct = 0) ∧
    (total ≠ 0 → row.pct = 100 * (row.count : ℚ) / (total : ℚ)) := by
  rcases List.mem_map.mp h with ⟨p, -, rfl⟩
  constructor
  · intro h0
    simp [h0]
  · intro hne
    rw [if_pos hne]
    ring

/-- C4 counterexample: the simple stats buildTagStats at denominator 0 on a
record with no period yields percentage infinity, not 0. -/
theorem C4_counterexample :
    buildTagStatsSimple [epB] effPeriod 0 = [⟨noPeriodTag, 1, JSNum.inf⟩] ∧
    JSNum.inf ≠ JSNum.fin 0 := by decide

/-- C4 witness: the guarded percentage law at denominator 0 and at
denominator 3. -/
theorem C4_witness :
    (⟨noPeriodTag, 1, 0⟩ : AggRow) ∈ buildTagStats [epB] effPeriod 0 ∧
    (⟨noPeriodTag, 1, 0⟩ : AggRow).pct = 0 ∧
    (⟨noPeriodTag, 1, 100 / 3⟩ : AggRow).pct =
      100 * ((⟨noPeriodTag, 1, 100 / 3⟩ : AggRow).count : ℚ) / (3 : ℚ) := by
  have hlist : buildTagStats [epB] effPeriod 3 = [⟨noPeriodTag, 1, 100 / 3⟩] := by
    have h : tallyTags (List.map effPeriod [epB]) = [(noPeriodTag, 1)] := by
      decide
    rw [buildTagStats, h]
    norm_num
  refine ⟨by decide, ?_, ?_⟩
  · exact (C4_buildTagStats_pct [epB] effPeriod 0 ⟨noPeriodTag, 1, 0⟩
      (by decide)).1 rfl
  · exact (C4_buildTagStats_pct [epB] effPeriod 3 ⟨noPeriodTag, 1, 100 / 3⟩
      (by rw [hlist]; exact List.mem_singleton.mpr rfl)).2 (by decide)

/-- C5 (corrected). The scenario counts are as claimed (Ancient 2, Medieval
1, No period assigned 1), but the stored percentages are the exact
rationals 200/3, 100/3 and 100/3, not the decimals 66.7 and 33.3; those
decimals are what the one-decimal toFixed display produces. -/
theorem C5_scenario :
    buildTagStats scenarioRecords effPeriod 3 =
      [⟨tagAncient, 2, 200 / 3⟩, ⟨noPeriodTag, 1, 100 / 3⟩,
       ⟨tagMedieval, 1, 100 / 3⟩] ∧
    roundTo1 (200 / 3) = 667 / 10 ∧ roundTo1 (100 / 3) = 333 / 10 := by
  refine ⟨?_, ?_, ?_⟩
  · have h : tallyTags (scenarioRecords.map effPeriod) =
        [(tagAncient, 2), (noPeriodTag, 1), (tagMedieval, 1)] := by decide
    rw [buildTagStats, h]
    norm_num
  · norm_num [roundTo1, round_eq]
  · norm_num [roundTo1, round_eq]

/-- C5 counterexample: the claim reads the percentages as exact values, but
the Ancient percentage buildTagStats stores is 200/3, which differs from
66.7 exactly. -/
theorem C5_counterexample :
    (buildTagStats scenarioRecords effPeriod 3).map AggRow.pct =
      [200 / 3, 100 / 3, 100 / 3] ∧ ((200 : ℚ) / 3) ≠ 667 / 10 := by
  constructor
  · have h : tallyTags (scenarioRecords.map effPeriod) =
        [(tagAncient, 2), (noPeriodTag, 1), (tagMedieval, 1)] := by decide
    rw [buildTagStats, h]
    norm_num
  · norm_num

/-- C10 (code bug, part_001 lines 406-413). When the cascade of the stats
page rebuilds the series dropdown (series selection empty), the owningSet
chain falls through to the topics set: a rebuilt series option shows the
checked state of the topics selection, and checking it adds the value to
the topics selection while the series selection stays empty. -/
theorem C10_series_owning_bug :
    owningSet ⟨[], [], [], [tagRome], []⟩ kSeriesKey = [tagRome] ∧
    checkedState ⟨[], [], [], [tagRome], []⟩ kSeriesKey tagRome = true ∧
    tagRome ∉ (⟨[], [], [], [tagRome], []⟩ : StatsFilters).series ∧
    (cascadeToggleOn ⟨[], [], [], [], []⟩ kSeriesKey tagRome).topics =
      [tagRome] ∧
    (cascadeToggleOn ⟨[], [], [], [], []⟩ kSeriesKey tagRome).series = [] := by
  decide

/-- C6 counterexample: the claim also cites the sortWithNoneLast of
src/stats.js, and that comparator sorts the test list of the claim to
2. Silver, 3. Gold, 1. Bronze, sentinel — descending by stripped label —
not to the claimed 1. Bronze, 2. Silver, 3. Gold, sentinel. -/
theorem C6_counterexample :
    sortWithNoneLastStats cpOrd
        [tag3Gold, noPeriodTag, tag1Bronze, tag2Silver] =
      [tag2Silver, tag3Gold, tag1Bronze, noPeriodTag] ∧
    ([tag2Silver, tag3Gold, tag1Bronze, noPeriodTag] : List JStr) ≠
      [tag1Bronze, tag2Silver, tag3Gold, noPeriodTag] := by decide

/-- C6 (corrected). The sortWithNoneLast comparator of data.js orders the
unassigned sentinel after every non-sentinel label, two numeric-prefix
labels numerically ascending, a numeric-prefix label before a non-numeric
one, and two non-numeric labels by the locale compare; and sorting the
concrete list of the claim produces the claimed order. -/
theorem C6_sortWithNoneLast :
    (∀ lc a b, startsWithStr a strNoSp = false →
      startsWithStr b strNoSp = true →
      sortWithNoneLastCmp lc a b = Ordering.lt) ∧
    (∀ lc a b, startsWithStr a strNoSp = true →
      startsWithStr b strNoSp = false →
      sortWithNoneLastCmp lc a b = Ordering.gt) ∧
    (∀ lc a b na nb, startsWithStr a strNoSp = false →
      startsWithStr b strNoSp = false → jsParseInt a = some na →
      jsParseInt b = some nb → sortWithNoneLastCmp lc a b = compare na nb) ∧
    (∀ lc a b na, startsWithStr a strNoSp = false →
      startsWithStr b strNoSp = false → jsParseInt a = some na →
      jsParseInt b = none → sortWithNoneLastCmp lc a b = Ordering.lt) ∧
    (∀ lc a b nb, startsWithStr a strNoSp = false →
      startsWithStr b strNoSp = false → jsParseInt a = none →
      jsParseInt b = some nb → sortWithNoneLastCmp lc a b = Ordering.gt) ∧
    (∀ lc a b, startsWithStr a strNoSp = false →
      startsWithStr b strNoSp = false → jsParseInt a = none →
      jsParseInt b = none → sortWithNoneLastCmp lc a b = lc a b) ∧
    sortWithNoneLast cpOrd [tag3Gold, noPeriodTag, tag1Bronze, tag2Silver] =
      [tag1Bronze, tag2Silver, tag3Gold, noPeriodTag] := by
  refine ⟨?_, ?_, ?_, ?_, ?_, ?_, by decide⟩
  · intro lc a b ha hb
    simp [sortWithNoneLastCmp, ha, hb]
  · intro lc a b ha hb
    simp [sortWithNoneLastCmp, ha, hb]
  · intro lc a b na nb ha hb hna hnb
    simp [sortWithNoneLastCmp, ha, hb, hna, hnb]
  · intro lc a b na ha hb hna hnb
    simp [sortWithNoneLastCmp, ha, hb, hna, hnb]
  · intro lc a b nb ha hb hna hnb
    simp [sortWithNoneLastCmp, ha, hb, hna, hnb]
  · intro lc a b ha hb hna hnb
    simp [sortWithNoneLastCmp, ha, hb, hna, hnb]

/-- C6 witness: each comparator branch and the sort discharged at concrete
labels. -/
theorem C6_witness :
    sortWithNoneLastCmp cpOrd tag1Bronze noPeriodTag = Ordering.lt ∧
    sortWithNoneLastCmp cpOrd noPeriodTag tag1Bronze = Ordering.gt ∧
    sortWithNoneLastCmp cpOrd tag1Bronze tag3Gold = compare (1 : Int) 3 ∧
    sortWithNoneLastCmp cpOrd tag1Bronze tagRome = Ordering.lt ∧
    sortWithNoneLastCmp cpOrd tagRome tag1Bronze = Ordering.gt ∧
    sortWithNoneLastCmp cpOrd tagAncient tagRome = cpOrd tagAncient tagRome :=
  ⟨C6_sortWithNoneLast.1 cpOrd tag1Bronze noPeriodTag (by decide) (by decide),
   C6_sortWithNoneLast.2.1 cpOrd noPeriodTag tag1Bronze (by decide)
     (by decide),
   C6_sortWithNoneLast.2.2.1 cpOrd tag1Bronze tag3Gold 1 3 (by decide)
     (by decide) (by decide) (by decide),
   C6_sortWithNoneLast.2.2.2.1 cpOrd tag1Bronze tagRome 1 (by decide)
     (by decide) (by decide) (by decide),
   C6_sortWithNoneLast.2.2.2.2.1 cpOrd tagRome tag1Bronze 1 (by decide)
     (by decide) (by decide) (by decide),
   C6_sortWithNoneLast.2.2.2.2.2.1 cpOrd tagAncient tagRome (by decide)
     (by decide) (by decide) (by decide)⟩

/-- C9 (confirmed). The canonical comparator of applyAndRender equals, at
every pair of records and every locale compare, the order described by the
spec: publish year descending, then month descending, then episode ordinal
descending, then title ascending; and the absent episode ordinal reads as
0, the lowest value an episode ordinal can parse to. -/
theorem C9_canonical_sort :
    (∀ lc a b, canonicalCmp lc a b = canonicalSpecOrder lc a b) ∧
    (∀ r : Record, r.episode = none → epOf r = 0) ∧
    (∀ (r : Record) (n : Nat), r.episode = some n → epOf r = (n : Int)) ∧
    (∀ r : Record, 0 ≤ epOf r) := by
  refine ⟨?_, ?_, ?_, ?_⟩
  · intro lc a b
    rw [canonicalCmp, canonicalSpecOrder]
    split_ifs <;> first | rfl | omega
  · intro r h
    simp [epOf, h]
  · intro r n h
    simp [epOf, h]
  · intro r
    rw [epOf]
    cases r.episode <;> simp

/-- C9 witness: the comparator equality and the ordinal readings at
concrete records. -/
theorem C9_witness :
    canonicalCmp cpOrd recW1 recW2 = canonicalSpecOrder cpOrd recW1 recW2 ∧
    epOf recNoEp = 0 ∧ epOf recW1 = (3 : Int) ∧ 0 ≤ epOf recW2 :=
  ⟨C9_canonical_sort.1 cpOrd recW1 recW2,
   C9_canonical_sort.2.1 recNoEp rfl,
   C9_canonical_sort.2.2.1 recW1 3 rfl,
   C9_canonical_sort.2.2.2 recW2⟩

/-- C8 (confirmed). With an empty query and every selection set empty, the
filter step of applyAndRender keeps every record, in the original order. -/
theorem C8_filter_identity (f : Filters) (rows : List Record)
    (hq : f.q = []) (hy : f.years = []) (hp : f.periods = [])
    (hr : f.regions = []) (ht : f.topics = []) :
    filterRows f rows = rows := by
  rw [filterRows]
  refine List.filter_eq_self.mpr ?_
  intro r _
  simp [matchesFilters, hq, hy, hp, hr, ht]

/-- C8 witness: the empty filter state at a concrete two-record list. -/
theorem C8_witness :
    filterRows ⟨[], [], [], [], []⟩ [recW1, recW2] = [recW1, recW2] :=
  C8_filter_identity ⟨[], [], [], [], []⟩ [recW1, recW2] rfl rfl rfl rfl rfl

/-- C1 (confirmed). A dimension whose selection set is non-empty keeps its
prior option list through the cascade rebuild, whatever the filtered rows
and the other selections are; a dimension with an empty selection set gets
its option list recomputed from the filtered rows alone. -/
theorem C1_cascade_preserves_selected_dimension (f : Filters)
    (rows : List Record) (prior : Panels) :
    (f.years ≠ [] →
      (rebuildFilterOptionsCascade f rows prior).year = prior.year) ∧
    (f.periods ≠ [] →
      (rebuildFilterOptionsCascade f rows prior).period = prior.period) ∧
    (f.regions ≠ [] →
      (rebuildFilterOptionsCascade f rows prior).region = prior.region) ∧
    (f.topics ≠ [] →
      (rebuildFilterOptionsCascade f rows prior).topic = prior.topic) ∧
    (f.years = [] → (rebuildFilterOptionsCascade f rows prior).year =
      sortYearDesc (collectOptionSets rows).years) ∧
    (f.periods = [] → (rebuildFilterOptionsCascade f rows prior).period =
      sortWithNoneLast cpOrd (collectOptionSets rows).periods) ∧
    (f.regions = [] → (rebuildFilterOptionsCascade f rows prior).region =
      sortAlphaNoneLast cpOrd (collectOptionSets rows).regions) ∧
    (f.topics = [] → (rebuildFilterOptionsCascade f rows prior).topic =
      sortAlphaNoneLast cpOrd (collectOptionSets rows).topics) := by
  refine ⟨?_, ?_, ?_, ?_, ?_, ?_, ?_, ?_⟩ <;> intro h <;>
    simp [rebuildFilterOptionsCascade, h]

/-- C1 witness: a state with a period selection and a topic selection, a
one-record filtered subset and concrete prior panels: the selected
dimensions keep their prior lists, the empty ones are recomputed. -/
theorem C1_witness :
    (rebuildFilterOptionsCascade ⟨[], [], [tag1Bronze], [], [tagRome]⟩ [recW1]
      ⟨["2019".toList], [tag2Silver], [tagRome], [tagAncient]⟩).period =
      [tag2Silver] ∧
    (rebuildFilterOptionsCascade ⟨[], [], [tag1Bronze], [], [tagRome]⟩ [recW1]
      ⟨["2019".toList], [tag2Silver], [tagRome], [tagAncient]⟩).topic =
      [tagAncient] ∧
    (rebuildFilterOptionsCascade ⟨[], [], [tag1Bronze], [], [tagRome]⟩ [recW1]
      ⟨["2019".toList], [tag2Silver], [tagRome], [tagAncient]⟩).year =
      sortYearDesc (collectOptionSets [recW1]).years ∧
    (rebuildFilterOptionsCascade ⟨[], [], [tag1Bronze], [], [tagRome]⟩ [recW1]
      ⟨["2019".toList], [tag2Silver], [tagRome], [tagAncient]⟩).region =
      sortAlphaNoneLast cpOrd (collectOptionSets [recW1]).regions :=
  ⟨(C1_cascade_preserves_selected_dimension ⟨[], [], [tag1Bronze], [], [tagRome]⟩
      [recW1] ⟨["2019".toList], [tag2Silver], [tagRome], [tagAncient]⟩).2.1
      (by decide),
   (C1_cascade_preserves_selected_dimension ⟨[], [], [tag1Bronze], [], [tagRome]⟩
      [recW1] ⟨["2019".toList], [tag2Silver], [tagRome], [tagAncient]⟩).2.2.2.1
      (by decide),
   (C1_cascade_preserves_selected_dimension ⟨[], [], [tag1Bronze], [], [tagRome]⟩
      [recW1] ⟨["2019".toList], [tag2Silver], [tagRome], [tagAncient]⟩).2.2.2.2.1
      rfl,
   (C1_cascade_preserves_selected_dimension ⟨[], [], [tag1Bronze], [], [tagRome]⟩
      [recW1] ⟨["2019".toList], [tag2Silver], [tagRome], [tagAncient]⟩).2.2.2.2.2.2.1
      rfl⟩

/-- isEmpty of a non-empty list is false. -/
theorem isEmpty_false_of_ne_nil {α : Type} (l : List α) (h : l ≠ []) : l.isEmpty = false := by
  cases l
  · cases h rfl
  · rfl

/-- getParam skips a segment whose key differs. -/
theorem getParam_seg_ne (c : Bool) (k' v k : JStr)
    (rest : List (JStr × JStr)) (h : k' ≠ k) :
    getParam (seg c k' v ++ rest) k = getParam rest k := by
  cases c <;> simp [seg, getParam, h]

/-- getParam at a segment with the right key reads its value when the
segment is present. -/
theorem getParam_seg_self (c : Bool) (k v : JStr)
    (rest : List (JStr × JStr)) :
    getParam (seg c k v ++ rest) k = if c then some v else getParam rest k := by
  cases c <;> simp [seg, getParam]

/-- getParam at a trailing segment whose key differs is none. -/
theorem getParam_seg_ne_nil (c : Bool) (k' v k : JStr) (h : k' ≠ k) :
    getParam (seg c k' v) k = none := by
  cases c <;> simp [seg, getParam, h]

/-- getParam at a trailing segment with the right key. -/
theorem getParam_seg_self_nil (c : Bool) (k v : JStr) :
    getParam (seg c k v) k = if c then some v else none := by
  cases c <;> simp [seg, getParam]

/-- Splitting a comma-free string is the singleton of that string. -/
theorem splitOnComma_no_comma (p : JStr) (h : ',' ∉ p) :
    splitOnComma p = [p] := by
  induction p with
  | nil => rfl
  | cons c rest ih =>
    have hc : ¬ c = ',' := by
      intro hc
      exact h (by simp [hc])
    have hrest : ',' ∉ rest := fun hm => h (List.mem_cons_of_mem c hm)
    simp [splitOnComma, hc, ih hrest]

/-- Splitting a comma-free piece, a comma and a rest peels off the piece. -/
theorem splitOnComma_append (p rest : JStr) (h : ',' ∉ p) :
    splitOnComma (p ++ ',' :: rest) = p :: splitOnComma rest := by
  induction p with
  | nil => simp [splitOnComma]
  | cons c p ih =>
    have hc : ¬ c = ',' := by
      intro hc
      exact h (by simp [hc])
    have hp : ',' ∉ p := fun hm => h (List.mem_cons_of_mem c hm)
    simp [splitOnComma, hc, ih hp]

/-- Split after join is the identity on non-empty lists of comma-free
parts: the round-trip core of the URL selection sets. -/
theorem splitOnComma_joinComma (parts : List JStr) (hne : parts ≠ [])
    (h : ∀ p ∈ parts, ',' ∉ p) :
    splitOnComma (joinComma parts) = parts := by
  induction parts with
  | nil => cases hne rfl
  | cons p ps ih =>
    cases ps with
    | nil =>
      have e : joinComma [p] = p := rfl
      rw [e, splitOnComma_no_comma p (h p (by simp))]
    | cons q qs =>
      have e : joinComma (p :: q :: qs) = p ++ ',' :: joinComma (q :: qs) := rfl
      rw [e, splitOnComma_append p _ (h p (by simp)),
        ih (by simp) (fun r hr => h r (List.mem_cons_of_mem p hr))]

/-- Membership after Set.add. -/
theorem mem_setAdd (s : List JStr) (x v : JStr) :
    v ∈ setAdd s x ↔ v ∈ s ∨ v = x := by
  rw [setAdd]
  split_ifs with h
  · constructor
    · exact Or.inl
    · rintro (hv | rfl)
      · exact hv
      · exact h
  · simp

/-- Membership after adding a whole list to a Set. -/
theorem mem_setAddAll (l : List JStr) (s : List JStr) (v : JStr) :
    v ∈ setAddAll s l ↔ v ∈ s ∨ v ∈ l := by
  induction l generalizing s with
  | nil => simp [setAddAll]
  | cons x xs ih =>
    have e : setAddAll s (x :: xs) = setAddAll (setAdd s x) xs := rfl
    rw [e, ih (setAdd s x), mem_setAdd]
    simp [or_assoc]

/-- The serialized q parameter. -/
theorem getParam_url_q (st : AppState) :
    getParam (updateUrlFromState st) kQ =
      if st.filters.q.isEmpty then none else some st.filters.q := by
  rw [updateUrlFromState]
  simp only [List.append_assoc]
  rw [getParam_seg_self,
    getParam_seg_ne _ kGroup _ kQ _ (by decide),
    getParam_seg_ne _ kYears _ kQ _ (by decide),
    getParam_seg_ne _ kPeriods _ kQ _ (by decide),
    getParam_seg_ne _ kRegions _ kQ _ (by decide),
    getParam_seg_ne_nil _ kTopics _ kQ (by decide)]
  cases h : st.filters.q.isEmpty <;> simp [h]

/-- The serialized group parameter. -/
theorem getParam_url_group (st : AppState) :
    getParam (updateUrlFromState st) kGroup =
      if st.groupBy.isEmpty then none else some st.groupBy := by
  rw [updateUrlFromState]
  simp only [List.append_assoc]
  rw [getParam_seg_ne _ kQ _ kGroup _ (by decide),
    getParam_seg_self,
    getParam_seg_ne _ kYears _ kGroup _ (by decide),
    getParam_seg_ne _ kPeriods _ kGroup _ (by decide),
    getParam_seg_ne _ kRegions _ kGroup _ (by decide),
    getParam_seg_ne_nil _ kTopics _ kGroup (by decide)]
  cases h : st.groupBy.isEmpty <;> simp [h]

/-- The serialized years parameter. -/
theorem getParam_url_years (st : AppState) :
    getParam (updateUrlFromState st) kYears =
      if st.filters.years.isEmpty then none
      else some (joinComma st.filters.years) := by
  rw [updateUrlFromState]
  simp only [List.append_assoc]
  rw [getParam_seg_ne _ kQ _ kYears _ (by decide),
    getParam_seg_ne _ kGroup _ kYears _ (by decide),
    getParam_seg_self,
    getParam_seg_ne _ kPeriods _ kYears _ (by decide),
    getParam_seg_ne _ kRegions _ kYears _ (by decide),
    getParam_seg_ne_nil _ kTopics _ kYears (by decide)]
  cases h : st.filters.years.isEmpty <;> simp [h]

/-- The serialized periods parameter. -/
theorem getParam_url_periods (st : AppState) :
    getParam (updateUrlFromState st) kPeriods =
      if st.filters.periods.isEmpty then none
      else some (joinComma st.filters.periods) := by
  rw [updateUrlFromState]
  simp only [List.append_assoc]
  rw [getParam_seg_ne _ kQ _ kPeriods _ (by decide),
    getParam_seg_ne _ kGroup _ kPeriods _ (by decide),
    getParam_seg_ne _ kYears _ kPeriods _ (by decide),
    getParam_seg_self,
    getParam_seg_ne _ kRegions _ kPeriods _ (by decide),
    getParam_seg_ne_nil _ kTopics _ kPeriods (by decide)]
  cases h : st.filters.periods.isEmpty <;> simp [h]

/-- The serialized regions parameter. -/
theorem getParam_url_regions (st : AppState) :
    getParam (updateUrlFromState st) kRegions =
      if st.filters.regions.isEmpty then none
      else some (joinComma st.filters.regions) := by
  rw [updateUrlFromState]
  simp only [List.append_assoc]
  rw [getParam_seg_ne _ kQ _ kRegions _ (by decide),
    getParam_seg_ne _ kGroup _ kRegions _ (by decide),
    getParam_seg_ne _ kYears _ kRegions _ (by decide),
    getParam_seg_ne _ kPeriods _ kRegions _ (by decide),
    getParam_seg_self,
    getParam_seg_ne_nil _ kTopics _ kRegions (by decide)]
  cases h : st.filters.regions.isEmpty <;> simp [h]

/-- The serialized topics parameter. -/
theorem getParam_url_topics (st : AppState) :
    getParam (updateUrlFromState st) kTopics =
      if st.filters.topics.isEmpty then none
      else some (joinComma st.filters.topics) := by
  rw [updateUrlFromState]
  simp only [List.append_assoc]
  rw [getParam_seg_ne _ kQ _ kTopics _ (by decide),
    getParam_seg_ne _ kGroup _ kTopics _ (by decide),
    getParam_seg_ne _ kYears _ kTopics _ (by decide),
    getParam_seg_ne _ kPeriods _ kTopics _ (by decide),
    getParam_seg_ne _ kRegions _ kTopics _ (by decide),
    getParam_seg_self_nil]
  cases h : st.filters.topics.isEmpty <;> simp [h]

/-- The q field the deserializer builds, by definition. -/
theorem load_q (ps : List (JStr × JStr)) :
    (loadStateFromUrl ps).filters.q =
      match getParam ps kQ with
      | some v => jsToLower v
      | none => [] := rfl

/-- The groupBy field the deserializer builds, by definition. -/
theorem load_group (ps : List (JStr × JStr)) :
    (loadStateFromUrl ps).groupBy =
      match getParam ps kGroup with
      | some v => v
      | none => defaultGroup := rfl

/-- C7 (confirmed). For every reachable application state — query already
lower-cased, grouping mode non-empty, and every selected value comma-free,
as every value the UI can select is — deserializing the serialized
parameters reproduces the query, the grouping mode and each selection set
up to set equality. -/
theorem C7_url_roundtrip (st : AppState)
    (hq : jsToLower st.filters.q = st.filters.q)
    (hg : st.groupBy ≠ [])
    (hy : ∀ p ∈ st.filters.years, ',' ∉ p)
    (hp : ∀ p ∈ st.filters.periods, ',' ∉ p)
    (hr : ∀ p ∈ st.filters.regions, ',' ∉ p)
    (ht : ∀ p ∈ st.filters.topics, ',' ∉ p) :
    (loadStateFromUrl (updateUrlFromState st)).filters.q = st.filters.q ∧
    (loadStateFromUrl (updateUrlFromState st)).groupBy = st.groupBy ∧
    (∀ v, v ∈ (loadStateFromUrl (updateUrlFromState st)).filters.years ↔
      v ∈ st.filters.years) ∧
    (∀ v, v ∈ (loadStateFromUrl (updateUrlFromState st)).filters.periods ↔
      v ∈ st.filters.periods) ∧
    (∀ v, v ∈ (loadStateFromUrl (updateUrlFromState st)).filters.regions ↔
      v ∈ st.filters.regions) ∧
    (∀ v, v ∈ (loadStateFromUrl (updateUrlFromState st)).filters.topics ↔
      v ∈ st.filters.topics) := by
  refine ⟨?_, ?_, ?_, ?_, ?_, ?_⟩
  · rw [load_q, getParam_url_q]
    by_cases hqe : st.filters.q = []
    · simp [hqe]
    · rw [isEmpty_false_of_ne_nil st.filters.q hqe]
      simpa using hq
  · rw [load_group, getParam_url_group, isEmpty_false_of_ne_nil st.groupBy hg]
    simp
  · intro v
    have e0 : (loadStateFromUrl (updateUrlFromState st)).filters.years =
        readSet (updateUrlFromState st) kYears := rfl
    rw [e0, readSet, getParam_url_years]
    by_cases he : st.filters.years = []
    · simp [he]
    · rw [isEmpty_false_of_ne_nil st.filters.years he]
      show v ∈ setAddAll [] (splitOnComma (joinComma st.filters.years)) ↔ _
      rw [splitOnComma_joinComma _ he hy, mem_setAddAll]
      simp
  · intro v
    have e0 : (loadStateFromUrl (updateUrlFromState st)).filters.periods =
        readSet (updateUrlFromState st) kPeriods := rfl
    rw [e0, readSet, getParam_url_periods]
    by_cases he : st.filters.periods = []
    · simp [he]
    · rw [isEmpty_false_of_ne_nil st.filters.periods he]
      show v ∈ setAddAll [] (splitOnComma (joinComma st.filters.periods)) ↔ _
      rw [splitOnComma_joinComma _ he hp, mem_setAddAll]
      simp
  · intro v
    have e0 : (loadStateFromUrl (updateUrlFromState st)).filters.regions =
        readSet (updateUrlFromState st) kRegions := rfl
    rw [e0, readSet, getParam_url_regions]
    by_cases he : st.filters.regions = []
    · simp [he]
    · rw [isEmpty_false_of_ne_nil st.filters.regions he]
      show v ∈ setAddAll [] (splitOnComma (joinComma st.filters.regions)) ↔ _
      rw [splitOnComma_joinComma _ he hr, mem_setAddAll]
      simp
  · intro v
    have e0 : (loadStateFromUrl (updateUrlFromState st)).filters.topics =
        readSet (updateUrlFromState st) kTopics := rfl
    rw [e0, readSet, getParam_url_topics]
    by_cases he : st.filters.topics = []
    · simp [he]
    · rw [isEmpty_false_of_ne_nil st.filters.topics he]
      show v ∈ setAddAll [] (splitOnComma (joinComma st.filters.topics)) ↔ _
      rw [splitOnComma_joinComma _ he ht, mem_setAddAll]
      simp

/-- C7 witness: the round trip at a concrete state with a query, the
default grouping mode and selections on two dimensions. -/
theorem C7_witness :
    jsToLower ("rome".toList) = "rome".toList ∧
    ((loadStateFromUrl (updateUrlFromState
        ⟨⟨"rome".toList, ["2020".toList], [tag1Bronze], [], []⟩,
          defaultGroup⟩)).filters.q = "rome".toList ∧
      (loadStateFromUrl (updateUrlFromState
        ⟨⟨"rome".toList, ["2020".toList], [tag1Bronze], [], []⟩,
          defaultGroup⟩)).groupBy = defaultGroup ∧
      (∀ v, v ∈ (loadStateFromUrl (updateUrlFromState
        ⟨⟨"rome".toList, ["2020".toList], [tag1Bronze], [], []⟩,
          defaultGroup⟩)).filters.years ↔ v ∈ ["2020".toList]) ∧
      (∀ v, v ∈ (loadStateFromUrl (updateUrlFromState
        ⟨⟨"rome".toList, ["2020".toList], [tag1Bronze], [], []⟩,
          defaultGroup⟩)).filters.periods ↔ v ∈ [tag1Bronze]) ∧
      (∀ v, v ∈ (loadStateFromUrl (updateUrlFromState
        ⟨⟨"rome".toList, ["2020".toList], [tag1Bronze], [], []⟩,
          defaultGroup⟩)).filters.regions ↔ v ∈ ([] : List JStr)) ∧
      (∀ v, v ∈ (loadStateFromUrl (updateUrlFromState
        ⟨⟨"rome".toList, ["2020".toList], [tag1Bronze], [], []⟩,
          defaultGroup⟩)).filters.topics ↔ v ∈ ([] : List JStr))) :=
  ⟨by decide,
   C7_url_roundtrip
     ⟨⟨"rome".toList, ["2020".toList], [tag1Bronze], [], []⟩, defaultGroup⟩
     (by decide) (by decide) (by decide) (by decide) (by decide) (by decide)⟩
